import Mathlib

set_option maxHeartbeats 1000000

/-!
Shallow embedding of the task-manager core of `to_do_list_app.py`
(class `TodoApp`): the task store operations (`add_task`, the
`save_and_close` closure of `edit_task_details`), the view projection
(`refresh_task_view` with its `sort_key`), the date validation helper
(`_is_valid_date`, i.e. `datetime.strptime(s, "%Y-%m-%d")`), and the
persistence pair (`_save_tasks` / `_load_tasks`).

Python string methods are embedded as structural functions on the
character list of the string (restricted to ASCII where Python is
Unicode-aware; every string the claims exercise is ASCII).  Fallible
code is embedded with `Option` / `Except`; a Python exception that the
source does not catch is an `Except.error` / `none`.
-/

namespace TodoApp

/-! ### Python string primitives -/

/-- `str.strip()` with no argument: remove leading and trailing
whitespace. -/
def stripChars (cs : List Char) : List Char :=
  ((cs.dropWhile Char.isWhitespace).reverse.dropWhile Char.isWhitespace).reverse

/-- `str.strip()` on a `String`. -/
def pyStrip (s : String) : String := String.mk (stripChars s.toList)

/-- `str.lower()` (ASCII range, via `Char.toLower`). -/
def pyLower (s : String) : String := String.mk (s.toList.map Char.toLower)

/-- One pass of `str.replace(old, new)`: scan left to right, replacing
each non-overlapping occurrence of `pat`.  The `fuel` argument only
drives structural termination; `fuel = cs.length` always suffices
because every step consumes at least one character. -/
def replaceFuel (pat rep : List Char) : Nat → List Char → List Char
  | 0, cs => cs
  | _ + 1, [] => []
  | fuel + 1, c :: cs =>
    if pat ≠ [] ∧ pat.isPrefixOf (c :: cs) then
      rep ++ replaceFuel pat rep fuel ((c :: cs).drop pat.length)
    else
      c :: replaceFuel pat rep fuel cs

/-- `s.replace(pat, rep)` for non-empty `pat`. -/
def pyReplace (s pat rep : String) : String :=
  String.mk (replaceFuel pat.toList rep.toList s.toList.length s.toList)

/-- Substring containment scan: `pat` occurs at some position of `cs`. -/
def containsList (pat : List Char) : List Char → Bool
  | [] => pat.isEmpty
  | c :: cs => pat.isPrefixOf (c :: cs) || containsList pat cs

/-- `pat in s`: substring containment. -/
def pyContains (s pat : String) : Bool := containsList pat.toList s.toList

/-! ### `datetime.strptime(s, "%Y-%m-%d")` -/

/-- ASCII digit test: what the `\d` groups of the `_strptime`
format regex of CPython match, restricted to ASCII digits. -/
def isDigitB (c : Char) : Bool := decide (48 ≤ c.toNat ∧ c.toNat ≤ 57)

/-- Accumulated decimal value of a digit string, as `int()` computes it
on the digit groups captured by the `strptime` regex. -/
def digitsValFrom : Nat → List Char → Nat
  | acc, [] => acc
  | acc, c :: cs => digitsValFrom (acc * 10 + (c.toNat - 48)) cs

def digitsVal (cs : List Char) : Nat := digitsValFrom 0 cs

/-- Split a character list at every `'-'` (the literal separators of the
`"%Y-%m-%d"` format); same group decomposition as the `strptime` regex,
and as `s.split("-")`. -/
def splitOnDash : List Char → List (List Char)
  | [] => [[]]
  | c :: cs =>
    if c = '-' then [] :: splitOnDash cs
    else
      match splitOnDash cs with
      | g :: gs => (c :: g) :: gs
      | [] => [[c]]

/-- The proleptic-Gregorian leap-year rule of Python, used by
`datetime(year, month, day)` when validating the day of the month. -/
def isLeap (y : Nat) : Bool := y % 4 == 0 && (y % 100 != 0 || y % 400 == 0)

/-- Length of a month, as validated by the `datetime` constructor that
`strptime` calls after its regex match. -/
def daysInMonth (y m : Nat) : Nat :=
  if m = 2 then (if isLeap y then 29 else 28)
  else if m = 4 ∨ m = 6 ∨ m = 9 ∨ m = 11 then 30 else 31

/-- `datetime.strptime(s, "%Y-%m-%d")`, restricted to ASCII digits.
The `_strptime` module of CPython compiles the format to the regex
`\d\d\d\d` `-` `(1[0-2]|0[1-9]|[1-9])` `-` `(3[01]|[12]\d|0[1-9]|[1-9])`,
requires the regex to consume the whole string, converts each group with
`int()`, and finally builds `datetime(y, m, d)`, which raises unless
`MINYEAR ≤ y` and the day fits the month.  Because the year group is
exactly four digit characters and the month/day groups are dash-free,
the regex matches the whole string iff the string splits on `'-'` into
exactly three such groups; the month and day alternations full-match a
group iff it has one or two digits with value in `1..12` (resp. `1..31`).
`none` models the raised `ValueError`. -/
def parseDate (s : String) : Option (Nat × Nat × Nat) :=
  match splitOnDash s.toList with
  | [ys, ms, ds] =>
    if ys.length = 4 ∧ ys.all isDigitB = true
       ∧ (ms.length = 1 ∨ ms.length = 2) ∧ ms.all isDigitB = true
       ∧ (ds.length = 1 ∨ ds.length = 2) ∧ ds.all isDigitB = true
       ∧ 1 ≤ digitsVal ys
       ∧ 1 ≤ digitsVal ms ∧ digitsVal ms ≤ 12
       ∧ 1 ≤ digitsVal ds
       ∧ digitsVal ds ≤ daysInMonth (digitsVal ys) (digitsVal ms)
    then some (digitsVal ys, digitsVal ms, digitsVal ds)
    else none
  | _ => none

/-- `TodoApp._is_valid_date` (lines 279-285): `strptime` succeeds. -/
def is_valid_date (s : String) : Bool := (parseDate s).isSome

/-- A task record, with exactly the keys every task dict in the source
carries (`add_task`, lines 165-174). -/
structure Task where
  id : String
  title : String
  due_date : String
  priority : String
  is_done : Bool
  notes : String
  is_recurring : Bool
  list_name : String
deriving DecidableEq

/-! ### `add_task` (lines 134-179) -/

/-- An uncaught Python exception. -/
inductive PyError where
  | attributeError
deriving DecidableEq

/-- The priority guess of `add_task`, lines 144-151: first matching
keyword set wins; the containment checks run on `title.lower()`. -/
def guessPriority (title : String) : String :=
  if ["p1", "priority 1", "high"].any (fun k => pyContains (pyLower title) k) then "P1"
  else if ["p2", "priority 2", "medium"].any (fun k => pyContains (pyLower title) k) then "P2"
  else "P3"

/-- The keyword stripping of `add_task`, line 163: case-sensitive literal
substring replacement of `"p1"`, `"p2"`, `"high"`, `"medium"` (in that
order), then `strip()`. -/
def strip_title (title : String) : String :=
  pyStrip (pyReplace (pyReplace (pyReplace (pyReplace title "p1" "") "p2" "") "high" "") "medium" "")

/-- `TodoApp.add_task` (lines 134-179).  `entry` is the quick-entry text
(`self.task_entry.get()`), `current_list` is `self.current_list`, and
`store` is `self.tasks`.  The title is stripped; an empty trimmed title
returns with no mutation (lines 139-141).  Otherwise lines 148-151
compute the priority guess and line 154 formats the current date — and then
line 155 evaluates `datetime.timedelta(days=1)`.  `datetime` is the
*class* imported by `from datetime import datetime`, which has no
attribute `timedelta`, so line 155 raises an uncaught `AttributeError`
on every call that reaches it: the due-date keyword checks, the keyword
stripping, the task construction and the append (lines 157-176) are
unreachable, and no task is ever added. -/
def add_task (entry : String) (current_list : String) (store : List Task) :
    Except PyError (List Task) :=
  let title := pyStrip entry
  if title = "" then .ok store
  else
    let _priority := guessPriority title
    let _current := current_list
    .error .attributeError

/-! ### `save_and_close` (the update closure of `edit_task_details`, lines 260-275) -/

/-- The field values held by the edit-dialog widgets when "Save Changes"
is pressed.  Every widget is initialised from the task being edited, so
a partial update supplies the old value for the untouched fields. -/
structure EditFields where
  title : String
  due_date : String
  priority : String
  is_recurring : Bool
  notes : String
deriving DecidableEq

/-- Outcome of `save_and_close`: either the task list was saved to disk
and the dialog closed, or the date-format error dialog was shown
(`InvalidDateFormat`) and nothing was persisted. -/
inductive UpdateOutcome where
  | saved
  | invalidDateFormat
deriving DecidableEq

/-- `save_and_close` (lines 260-275).  Lines 262-266 first assign all
five widget values to the task dict (the notes widget text is
`strip()`ped); only then do lines 269-271 validate the new due date,
and on failure show the error and return without saving.  The returned
`Task` is the in-memory task after the call. -/
def save_and_close (task : Task) (f : EditFields) : Task × UpdateOutcome :=
  let t : Task :=
    { task with
      title := f.title
      due_date := f.due_date
      priority := f.priority
      is_recurring := f.is_recurring
      notes := pyStrip f.notes }
  if t.due_date ≠ "" ∧ is_valid_date t.due_date = false then
    (t, .invalidDateFormat)
  else
    (t, .saved)

/-! ### `refresh_task_view` and `sort_key` (lines 287-311) -/

/-- The dict literal `{"P1": 1, "P2": 2, "P3": 3, "": 4}` (source-written with single quotes) of line 302,
as a lookup. -/
def priority_map (p : String) : Option Nat :=
  if p = "P1" then some 1
  else if p = "P2" then some 2
  else if p = "P3" then some 3
  else if p = "" then some 4
  else none

/-- Line 303: `priority_map.get(task.get("priority", ""), 4)`. -/
def priority_num (p : String) : Nat := (priority_map p).getD 4

/-- Python orders booleans `False < True`; encode `is_done` as 0/1. -/
def doneN (b : Bool) : Nat := if b then 1 else 0

/-- Order-embedding of the `datetime` values occurring as date sort keys.
A parsed `strptime` result is a midnight datetime, encoded as
`2 * (y * 10000 + m * 100 + d)`; this is strictly monotone in (y, m, d)
lexicographically because `m ≤ 12 < 100` and `d ≤ 31 < 100`. -/
def dateNum : Nat × Nat × Nat → Nat
  | (y, m, d) => 2 * (y * 10000 + m * 100 + d)

/-- `datetime.max` (the sentinel of line 307): 9999-12-31 23:59:59.999999,
strictly later than every midnight `strptime` result. -/
def dateKeyMax : Nat := 2 * (9999 * 10000 + 12 * 100 + 31) + 1

/-- Lines 306-307: the date component of the sort key; an empty (falsy)
due date gets `datetime.max`, anything else is parsed with `strptime`
(`none` models the `ValueError` this raises on an unparseable string). -/
def date_sort_key (due : String) : Option Nat :=
  if due = "" then some dateKeyMax
  else (parseDate due).map dateNum

/-- `sort_key(task)` (lines 298-309): the triple
`(done_status, priority_num, date_sort_key)`; `none` when the date
component raises. -/
def sort_key (t : Task) : Option (Nat × Nat × Nat) :=
  (date_sort_key t.due_date).map fun dk => (doneN t.is_done, priority_num t.priority, dk)

/-- The key actually compared during sorting (total on tasks whose key is
defined; the default is irrelevant under the definedness guard). -/
def keyD (t : Task) : Nat × Nat × Nat := (sort_key t).getD (0, 0, 0)

/-- Lexicographic `≤` on key triples: tuple comparison as in Python. -/
def keyLe : Nat × Nat × Nat → Nat × Nat × Nat → Bool
  | (a1, a2, a3), (b1, b2, b3) =>
    if a1 < b1 then true
    else if b1 < a1 then false
    else if a2 < b2 then true
    else if b2 < a2 then false
    else decide (a3 ≤ b3)

/-- The comparison `sorted` effectively uses: keys, compared as tuples. -/
def taskLe (a b : Task) : Bool := keyLe (keyD a) (keyD b)

/-- Line 295: `[t for t in self.tasks if t.get("list_name", "Inbox") ==
self.current_list]`. -/
def visible_tasks (tasks : List Task) (current_list : String) : List Task :=
  tasks.filter fun t => t.list_name == current_list

/-- The sorting pipeline of `refresh_task_view` (lines 287-311): filter
to the current list, then `sorted(filtered_tasks, key=sort_key)`.
`sorted` applies `key` once to every element and raises if any
application raises, so the embedding guards on every key being defined
and otherwise returns `none`; it then performs a stable ascending sort
by the keys, modelled by `List.mergeSort` (a stable sort is determined
by its comparison, so any stable sort embeds Timsort faithfully). -/
def refresh_task_view (tasks : List Task) (current_list : String) : Option (List Task) :=
  if (visible_tasks tasks current_list).all (fun t => (sort_key t).isSome) then
    some ((visible_tasks tasks current_list).mergeSort taskLe)
  else
    none

/-! ### The display order in the words of the specification (§4.2)

These relations are written from the description in the spec of the sort
policy, to be compared with the key-based sort the source performs. -/

/-- Chronological order on parsed (year, month, day) dates. -/
def ymdLexb : Nat × Nat × Nat → Nat × Nat × Nat → Bool
  | (y1, m1, d1), (y2, m2, d2) =>
    if y1 < y2 then true
    else if y2 < y1 then false
    else if m1 < m2 then true
    else if m2 < m1 then false
    else decide (d1 ≤ d2)

/-- Spec §4.2, level 3: an empty due date sorts as "latest possible"
(after every concrete date); concrete dates compare chronologically. -/
def dueSpecLe (da db : String) : Bool :=
  if db = "" then true
  else if da = "" then false
  else
    match parseDate da, parseDate db with
    | some pa, some pb => ymdLexb pa pb
    | _, _ => false

/-- Spec §4.2: the three-level composite display order — `is_done` with
false first, then priority rank ascending, then the due-date order. -/
def specSortLe (a b : Task) : Bool :=
  if a.is_done = b.is_done then
    if priority_num a.priority = priority_num b.priority then
      dueSpecLe a.due_date b.due_date
    else decide (priority_num a.priority < priority_num b.priority)
  else !a.is_done

/-! ### Persistence (`_load_tasks` lines 337-346, `_save_tasks` lines 348-354) -/

/-- The JSON values involved in the task file. -/
inductive Json where
  | str (s : String)
  | bool (b : Bool)
  | arr (elems : List Json)
  | obj (fields : List (String × Json))

/-- The JSON object `json.dump` writes for one task dict: exactly the
eight keys of the dict literal of `add_task` (lines 165-174), in its
insertion order. -/
def taskToJson (t : Task) : Json :=
  .obj [("id", .str t.id), ("title", .str t.title), ("due_date", .str t.due_date),
        ("priority", .str t.priority), ("is_done", .bool t.is_done),
        ("notes", .str t.notes), ("is_recurring", .bool t.is_recurring),
        ("list_name", .str t.list_name)]

/-- Read one task dict back into a `Task` record; `none` if the value is
not a task-shaped object.  (The source trusts loaded data as-is; this
decoder only expresses "equal field-for-field" for the round-trip law.) -/
def jsonToTask : Json → Option Task
  | .obj [("id", .str i), ("title", .str ti), ("due_date", .str du),
          ("priority", .str p), ("is_done", .bool dn), ("notes", .str no),
          ("is_recurring", .bool r), ("list_name", .str l)] =>
    some ⟨i, ti, du, p, dn, no, r, l⟩
  | _ => none

def decodeList : List Json → Option (List Task)
  | [] => some []
  | j :: js =>
    match jsonToTask j, decodeList js with
    | some t, some ts => some (t :: ts)
    | _, _ => none

/-- Decode the whole file value as the task sequence. -/
def decodeTasks : Json → Option (List Task)
  | .arr js => decodeList js
  | _ => none

/-- The state of `tasks.json` on disk: absent, present but not
well-formed JSON text (`json.load` raises `JSONDecodeError`), or present
and parsing to a JSON value. -/
inductive FileState where
  | missing
  | malformed
  | wellFormed (j : Json)

/-- What a call to `_load_tasks` produces: the value returned as
`self.tasks`, and whether the corrupt-store error dialog was shown. -/
structure LoadResult where
  value : Json
  corruptSignaled : Bool

/-- `_load_tasks` (lines 337-346): a missing file yields `[]` silently
(line 346); a file that fails to parse triggers the `JSONDecodeError`
handler, which shows the error dialog and returns `[]` itself
(lines 343-345); otherwise the parsed value is returned as-is
(line 342). -/
def _load_tasks : FileState → LoadResult
  | .missing => ⟨.arr [], false⟩
  | .malformed => ⟨.arr [], true⟩
  | .wellFormed j => ⟨j, false⟩

/-- `_save_tasks` (lines 348-354) in the successful case: `json.dump`
overwrites the file with the serialised task list, which is well-formed
JSON text parsing back to the same value. -/
def _save_tasks (ts : List Task) : FileState := .wellFormed (.arr (ts.map taskToJson))

/-! ### Concrete sample data used to instantiate the theorems -/

/-- A stored task with a valid due date, prior to an edit. -/
def sampleTask : Task := ⟨"1", "Old", "2024-01-01", "P1", false, "", false, "Inbox"⟩

/-- Edit-dialog fields supplying a due date that does not parse as
`YYYY-MM-DD`. -/
def sampleEdit : EditFields := ⟨"Old", "13/01/2030", "P1", false, ""⟩

/-- The quick-sort demo of spec §8: priorities P3, P1, P2, all open,
no due dates. -/
def sortDemo : List Task :=
  [⟨"1", "c", "", "P3", false, "", false, "Inbox"⟩,
   ⟨"2", "a", "", "P1", false, "", false, "Inbox"⟩,
   ⟨"3", "b", "", "P2", false, "", false, "Inbox"⟩]

/-- Two open tasks with identical sort keys (same priority, no due
dates), in insertion order. -/
def stableA : Task := ⟨"1", "first", "", "P2", false, "", false, "Inbox"⟩

def stableB : Task := ⟨"2", "second", "", "P2", false, "", false, "Inbox"⟩

def stableDemo : List Task := [stableA, stableB]

/-- A task whose non-empty due date does not parse (loadable state:
loaded data is trusted as-is). -/
def badDateTask : Task := ⟨"4", "x", "13/01/2030", "P1", false, "", false, "Inbox"⟩

/-- A single well-formed task for the round-trip instance. -/
def roundTask : Task := ⟨"7", "a", "2030-01-13", "P3", false, "n", true, "Work"⟩

/-! ### Helper lemmas: bounds of parsed dates -/

theorem digitsValFrom_lt (cs : List Char) :
    ∀ acc, (∀ c ∈ cs, c.toNat - 48 ≤ 9) →
    digitsValFrom acc cs < (acc + 1) * 10 ^ cs.length := by
  induction cs with
  | nil =>
    intro acc _
    show acc < (acc + 1) * 10 ^ 0
    omega
  | cons c cs ih =>
    intro acc h
    have hc : c.toNat - 48 ≤ 9 := h c (List.mem_cons_self c cs)
    have h' : ∀ x ∈ cs, x.toNat - 48 ≤ 9 := fun x hx => h x (List.mem_cons_of_mem c hx)
    calc digitsValFrom acc (c :: cs)
        = digitsValFrom (acc * 10 + (c.toNat - 48)) cs := rfl
      _ < (acc * 10 + (c.toNat - 48) + 1) * 10 ^ cs.length := ih _ h'
      _ ≤ ((acc + 1) * 10) * 10 ^ cs.length := Nat.mul_le_mul_right _ (by omega)
      _ = (acc + 1) * 10 ^ (c :: cs).length := by
          rw [List.length_cons, pow_succ]; ring

theorem digitsVal_le_of_four_digits {cs : List Char}
    (hlen : cs.length = 4) (hdig : cs.all isDigitB = true) :
    digitsVal cs ≤ 9999 := by
  have h : ∀ c ∈ cs, c.toNat - 48 ≤ 9 := by
    intro c hc
    have := List.all_eq_true.1 hdig c hc
    have := of_decide_eq_true this
    omega
  have hlt := digitsValFrom_lt cs 0 h
  rw [hlen] at hlt
  have : (0 + 1) * 10 ^ 4 = 10000 := by norm_num
  rw [this] at hlt
  unfold digitsVal
  omega

theorem daysInMonth_le_31 (y m : Nat) : daysInMonth y m ≤ 31 := by
  unfold daysInMonth
  split_ifs <;> omega

theorem parseDate_bounds {s : String} {y m d : Nat}
    (h : parseDate s = some (y, m, d)) :
    1 ≤ y ∧ y ≤ 9999 ∧ 1 ≤ m ∧ m ≤ 12 ∧ 1 ≤ d ∧ d ≤ 31 := by
  unfold parseDate at h
  split at h
  case h_2 => exact absurd h (by simp)
  case h_1 ys ms ds _ =>
    split_ifs at h with hc
    · obtain ⟨hylen, hydig, _, _, _, _, hy1, hm1, hm12, hd1, hdm⟩ := hc
      have hy9999 : digitsVal ys ≤ 9999 := digitsVal_le_of_four_digits hylen hydig
      have hd31 : digitsVal ds ≤ 31 :=
        Nat.le_trans hdm (daysInMonth_le_31 (digitsVal ys) (digitsVal ms))
      simp only [Option.some.injEq, Prod.mk.injEq] at h
      obtain ⟨hy, hm, hd⟩ := h
      subst hy; subst hm; subst hd
      exact ⟨hy1, hy9999, hm1, hm12, hd1, hd31⟩

theorem dateNum_lt_dateKeyMax {y m d : Nat}
    (hy : y ≤ 9999) (hm : m ≤ 12) (hd : d ≤ 31) :
    dateNum (y, m, d) < dateKeyMax := by
  simp only [dateNum, dateKeyMax]
  omega

theorem dateNum_le_iff {y1 m1 d1 y2 m2 d2 : Nat}
    (hm1 : m1 ≤ 12) (hd1 : d1 ≤ 31) (hm2 : m2 ≤ 12) (hd2 : d2 ≤ 31) :
    dateNum (y1, m1, d1) ≤ dateNum (y2, m2, d2) ↔
      ymdLexb (y1, m1, d1) (y2, m2, d2) = true := by
  simp only [dateNum, ymdLexb]
  split_ifs <;> simp <;> omega

/-! ### Helper lemmas: the comparison used by the sort -/

theorem keyLe_iff (a b : Nat × Nat × Nat) :
    keyLe a b = true ↔
      a.1 < b.1 ∨ (a.1 = b.1 ∧ (a.2.1 < b.2.1 ∨ (a.2.1 = b.2.1 ∧ a.2.2 ≤ b.2.2))) := by
  obtain ⟨a1, a2, a3⟩ := a
  obtain ⟨b1, b2, b3⟩ := b
  simp only [keyLe]
  split_ifs <;> simp <;> omega

theorem keyLe_refl (a : Nat × Nat × Nat) : keyLe a a = true := by
  rw [keyLe_iff]; omega

theorem taskLe_trans : ∀ (a b c : Task), taskLe a b → taskLe b c → taskLe a c := by
  intro a b c h1 h2
  unfold taskLe at *
  rw [keyLe_iff] at *
  omega

theorem taskLe_total : ∀ (a b : Task), taskLe a b || taskLe b a := by
  intro a b
  unfold taskLe
  rw [Bool.or_eq_true, keyLe_iff, keyLe_iff]
  omega

/-! ### Helper lemmas: the key order refines the display order of the spec -/

theorem date_key_le_spec {da db : String} {ka kb : Nat}
    (hka : date_sort_key da = some ka) (hkb : date_sort_key db = some kb)
    (hle : ka ≤ kb) : dueSpecLe da db = true := by
  unfold date_sort_key at hka hkb
  by_cases hb : db = ""
  · simp [dueSpecLe, hb]
  · by_cases ha : da = ""
    · rw [if_pos ha] at hka
      rw [if_neg hb] at hkb
      cases hpb : parseDate db with
      | none => rw [hpb] at hkb; exact absurd hkb (by simp)
      | some pb =>
        rw [hpb] at hkb
        have hka' : dateKeyMax = ka := by simpa using hka
        have hkb' : dateNum pb = kb := by simpa using hkb
        obtain ⟨y2, m2, d2⟩ := pb
        obtain ⟨_, hy2, _, hm2, _, hd2⟩ := parseDate_bounds hpb
        have hlt := dateNum_lt_dateKeyMax hy2 hm2 hd2
        rw [← hka', ← hkb'] at hle
        omega
    · rw [if_neg ha] at hka
      rw [if_neg hb] at hkb
      cases hpa : parseDate da with
      | none => rw [hpa] at hka; exact absurd hka (by simp)
      | some pa =>
        cases hpb : parseDate db with
        | none => rw [hpb] at hkb; exact absurd hkb (by simp)
        | some pb =>
          rw [hpa] at hka; rw [hpb] at hkb
          have hka' : dateNum pa = ka := by simpa using hka
          have hkb' : dateNum pb = kb := by simpa using hkb
          obtain ⟨y1, m1, d1⟩ := pa
          obtain ⟨y2, m2, d2⟩ := pb
          obtain ⟨_, _, _, hm1, _, hd1⟩ := parseDate_bounds hpa
          obtain ⟨_, _, _, hm2, _, hd2⟩ := parseDate_bounds hpb
          have hnum : dateNum (y1, m1, d1) ≤ dateNum (y2, m2, d2) := by
            rw [hka', hkb']; exact hle
          have := (dateNum_le_iff hm1 hd1 hm2 hd2).1 hnum
          simp [dueSpecLe, ha, hb, hpa, hpb, this]

theorem doneN_lt {a b : Bool} (h : doneN a < doneN b) : a = false ∧ b = true := by
  cases a <;> cases b <;> simp [doneN] at h ⊢

theorem doneN_inj {a b : Bool} (h : doneN a = doneN b) : a = b := by
  cases a <;> cases b <;> simp [doneN] at h ⊢

theorem taskLe_imp_spec {a b : Task}
    (ha : (sort_key a).isSome = true) (hb : (sort_key b).isSome = true)
    (h : taskLe a b = true) : specSortLe a b = true := by
  unfold sort_key at ha hb
  cases hda : date_sort_key a.due_date with
  | none => rw [hda] at ha; exact absurd ha (by simp)
  | some dka =>
  cases hdb : date_sort_key b.due_date with
  | none => rw [hdb] at hb; exact absurd hb (by simp)
  | some dkb =>
  have hkA : keyD a = (doneN a.is_done, priority_num a.priority, dka) := by
    simp [keyD, sort_key, hda]
  have hkB : keyD b = (doneN b.is_done, priority_num b.priority, dkb) := by
    simp [keyD, sort_key, hdb]
  unfold taskLe at h
  rw [hkA, hkB, keyLe_iff] at h
  simp only at h
  rcases h with hlt | ⟨heq, hplt | ⟨hpeq, hdle⟩⟩
  · obtain ⟨h1, h2⟩ := doneN_lt hlt
    simp [specSortLe, h1, h2]
  · have hdone := doneN_inj heq
    have hne : priority_num a.priority ≠ priority_num b.priority := Nat.ne_of_lt hplt
    simp [specSortLe, hdone, hne, hplt]
  · have hdone := doneN_inj heq
    have := date_key_le_spec hda hdb hdle
    simp [specSortLe, hdone, hpeq, this]

/-! ### Helper lemmas: `refresh_task_view` -/

theorem refresh_eq_some {tasks : List Task} {cur : String} {out : List Task}
    (h : refresh_task_view tasks cur = some out) :
    (visible_tasks tasks cur).all (fun t => (sort_key t).isSome) = true ∧
    out = (visible_tasks tasks cur).mergeSort taskLe := by
  unfold refresh_task_view at h
  split_ifs at h with hg
  · exact ⟨hg, (Option.some.inj h).symm⟩

theorem visible_guard_of_valid (tasks : List Task) (cur : String)
    (hvalid : ∀ t ∈ tasks, t.due_date ≠ "" → is_valid_date t.due_date = true) :
    (visible_tasks tasks cur).all (fun t => (sort_key t).isSome) = true := by
  rw [List.all_eq_true]
  intro t ht
  have htask : t ∈ tasks := (List.mem_filter.1 ht).1
  unfold sort_key date_sort_key
  by_cases hd : t.due_date = ""
  · simp [hd]
  · have hv : (parseDate t.due_date).isSome = true := hvalid t htask hd
    cases hp : parseDate t.due_date with
    | none => rw [hp] at hv; exact absurd hv (by simp)
    | some p => simp [hd, hp]

/-! ### Helper lemmas: persistence round trip -/

theorem jsonToTask_taskToJson (t : Task) : jsonToTask (taskToJson t) = some t := rfl

theorem decodeList_map (ts : List Task) : decodeList (ts.map taskToJson) = some ts := by
  induction ts with
  | nil => rfl
  | cons t ts ih =>
    show decodeList (taskToJson t :: ts.map taskToJson) = some (t :: ts)
    unfold decodeList
    rw [jsonToTask_taskToJson, ih]

/-! ### Claim theorems -/

/-- C1, counterexample: updating `sampleTask` with the unparseable due
date `"13/01/2030"` reports `InvalidDateFormat`, yet the `due_date` of the in-memory
task no longer equals its pre-call value — the update is not
all-or-nothing. -/
theorem C1_counterexample :
    (save_and_close sampleTask sampleEdit).2 = UpdateOutcome.invalidDateFormat ∧
    (save_and_close sampleTask sampleEdit).1.due_date ≠ sampleTask.due_date := by
  decide

/-- C1, amended: on a supplied non-empty due date that does not parse as
`YYYY-MM-DD`, the update reports `InvalidDateFormat` and performs no save,
but the in-memory task has already been overwritten with all five
supplied field values, including the invalid due date; the prior values
are not restored. -/
theorem C1_update_invalid_date (task : Task) (f : EditFields)
    (hne : f.due_date ≠ "") (hbad : is_valid_date f.due_date = false) :
    save_and_close task f =
      ({ task with
          title := f.title
          due_date := f.due_date
          priority := f.priority
          is_recurring := f.is_recurring
          notes := pyStrip f.notes }, UpdateOutcome.invalidDateFormat) := by
  unfold save_and_close
  rw [if_pos ⟨hne, hbad⟩]

/-- C1, witness: the amended statement at `sampleTask` / `sampleEdit`. -/
theorem C1_witness :
    save_and_close sampleTask sampleEdit =
      (⟨"1", "Old", "13/01/2030", "P1", false, "", false, "Inbox"⟩,
       UpdateOutcome.invalidDateFormat) :=
  C1_update_invalid_date sampleTask sampleEdit (by decide) (by decide)

/-- C2: for every entry whose trimmed title is non-empty, `add_task`
raises an uncaught `AttributeError` (line 155 evaluates
`datetime.timedelta` on the `datetime` class) and appends nothing — it
never completes normally, contradicting the claim. -/
theorem C2_add_task_raises (entry current_list : String) (store : List Task)
    (h : pyStrip entry ≠ "") :
    add_task entry current_list store = .error .attributeError := by
  unfold add_task
  rw [if_neg h]

/-- C2, witness: the failure at the concrete entry `"Buy milk"`. -/
theorem C2_witness : add_task "Buy milk" "Inbox" [] = .error .attributeError :=
  C2_add_task_raises "Buy milk" "Inbox" [] (by decide)

/-- C3: entries containing the date keywords `"today"` / `"tomorrow"`
also raise `AttributeError` before the due-date keyword checks run
(they are at lines 157-160, after the raising line 155), so no task with
a guessed due date is ever created; the stripping of line 163 would
indeed retain the word `"tomorrow"`, but it too is unreachable. -/
theorem C3_date_keyword_raises :
    add_task "finish report today" "Inbox" [] = .error .attributeError ∧
    add_task "Call mom tomorrow" "Inbox" [] = .error .attributeError ∧
    strip_title "Call mom tomorrow" = "Call mom tomorrow" :=
  ⟨rfl, rfl, by decide⟩

/-- C4: the priority classification and stripping code (lines 148-151
and 163) would classify `"Buy milk high"` as P1 and store the title
`"Buy milk"` exactly as claimed, but it is unreachable: `add_task`
raises `AttributeError` at line 155 before building any task. -/
theorem C4_priority_keyword_raises :
    add_task "Buy milk high" "Inbox" [] = .error .attributeError ∧
    guessPriority "Buy milk high" = "P1" ∧
    strip_title "Buy milk high" = "Buy milk" :=
  ⟨rfl, by decide, by decide⟩

/-- C5: the entry `"high"` has a non-empty trimmed title, so it passes
the emptiness guard — and then `add_task` raises `AttributeError`, so no
task is stored at all (the invariant holds only vacuously); moreover the
stripping logic of line 163 maps the title `"high"` to the empty string,
so the intended store (with line 155 fixed) would violate the
non-empty-title invariant the claim asserts. -/
theorem C5_keyword_only_title :
    pyStrip "high" ≠ "" ∧
    add_task "high" "Inbox" [] = .error .attributeError ∧
    guessPriority "high" = "P1" ∧
    strip_title "high" = "" :=
  ⟨by decide, rfl, by decide, by decide⟩

/-- C6: under the precondition of the claim that every non-empty due date
parses, the projection succeeds and its output is a permutation of the
tasks of the current list, ordered (pairwise) by the three-level
composite key: open before done, then priority rank ascending, then due
dates chronologically with an empty due date after every concrete one. -/
theorem C6_view_sorted (tasks : List Task) (cur : String)
    (hvalid : ∀ t ∈ tasks, t.due_date ≠ "" → is_valid_date t.due_date = true) :
    ∃ out, refresh_task_view tasks cur = some out ∧
      out.Pairwise (fun a b => specSortLe a b = true) ∧
      out.Perm (visible_tasks tasks cur) := by
  have hg := visible_guard_of_valid tasks cur hvalid
  refine ⟨(visible_tasks tasks cur).mergeSort taskLe, ?_, ?_, List.mergeSort_perm _ _⟩
  · unfold refresh_task_view
    rw [if_pos hg]
  · have hs := List.sorted_mergeSort taskLe_trans taskLe_total
      (visible_tasks tasks cur)
    refine List.Pairwise.imp_of_mem ?_ hs
    intro a b hma hmb hab
    have ha : (sort_key a).isSome = true :=
      List.all_eq_true.1 hg a (List.mem_mergeSort.1 hma)
    have hb : (sort_key b).isSome = true :=
      List.all_eq_true.1 hg b (List.mem_mergeSort.1 hmb)
    exact taskLe_imp_spec ha hb hab

/-- C6, witness: the spec §8 demo — P3, P1, P2 all open with empty due
dates — projects to a sorted permutation. -/
theorem C6_witness :
    ∃ out, refresh_task_view sortDemo "Inbox" = some out ∧
      out.Pairwise (fun a b => specSortLe a b = true) ∧
      out.Perm (visible_tasks sortDemo "Inbox") :=
  C6_view_sorted sortDemo "Inbox" (by decide)

/-- C7: the sort of the view projection is stable — two tasks with identical
`is_done`, identical priority rank and identical due-date sort key that
occur (in order) in the filtered input occur in the same order in the
output. -/
theorem C7_view_sort_stable (tasks : List Task) (cur : String) (out : List Task)
    (a b : Task)
    (h : refresh_task_view tasks cur = some out)
    (hdone : a.is_done = b.is_done)
    (hprio : priority_num a.priority = priority_num b.priority)
    (hdue : date_sort_key a.due_date = date_sort_key b.due_date)
    (hin : [a, b].Sublist (visible_tasks tasks cur)) :
    [a, b].Sublist out := by
  obtain ⟨hall, rfl⟩ := refresh_eq_some h
  have hk : keyD a = keyD b := by
    unfold keyD sort_key
    rw [hdue, hdone, hprio]
  have hab : taskLe a b = true := by
    unfold taskLe
    rw [hk]
    exact keyLe_refl _
  exact List.pair_sublist_mergeSort taskLe_trans taskLe_total hab hin

/-- C7, witness: two equal-key tasks keep their insertion order in the
projected output. -/
theorem C7_witness :
    [stableA, stableB].Sublist ((visible_tasks stableDemo "Inbox").mergeSort taskLe) :=
  C7_view_sort_stable stableDemo "Inbox"
    ((visible_tasks stableDemo "Inbox").mergeSort taskLe) stableA stableB
    rfl rfl rfl rfl (List.Sublist.refl _)

/-- C8: saving any task sequence and loading it back yields the same
sequence, field for field and in order, with no corruption signal. -/
theorem C8_round_trip (ts : List Task) (hne : ts ≠ []) :
    decodeTasks (_load_tasks (_save_tasks ts)).value = some ts ∧
    (_load_tasks (_save_tasks ts)).corruptSignaled = false := by
  refine ⟨?_, rfl⟩
  show decodeTasks (.arr (ts.map taskToJson)) = some ts
  unfold decodeTasks
  exact decodeList_map ts

/-- C8, witness: the round trip at a one-task store. -/
theorem C8_witness :
    decodeTasks (_load_tasks (_save_tasks [roundTask])).value = some [roundTask] ∧
    (_load_tasks (_save_tasks [roundTask])).corruptSignaled = false :=
  C8_round_trip [roundTask] (by decide)

/-- C9, counterexample: saving an empty store writes an existing,
well-formed file from which load returns an empty sequence with no
error signal — so "returns an empty sequence (not an error)" does not
imply "the backing file does not exist", refuting the claimed
"exactly when". -/
theorem C9_counterexample :
    _save_tasks [] ≠ FileState.missing ∧
    (_load_tasks (_save_tasks [])).value = Json.arr [] ∧
    (_load_tasks (_save_tasks [])).corruptSignaled = false := by
  refine ⟨?_, rfl, rfl⟩
  intro h
  simp [_save_tasks] at h

/-- C9, amended: the corrupt-store error is signaled exactly when the
file exists but its content is malformed (the handler also falls back to
an empty list itself), and a missing file yields an empty sequence with
no error; however, an existing well-formed file holding an empty list
also yields an empty, error-free result. -/
theorem C9_load_semantics (fs : FileState) :
    ((_load_tasks fs).corruptSignaled = true ↔ fs = FileState.malformed) ∧
    (fs = FileState.missing →
      (_load_tasks fs).value = Json.arr [] ∧
      (_load_tasks fs).corruptSignaled = false) := by
  cases fs <;> refine ⟨?_, ?_⟩ <;> simp [_load_tasks]

/-- C9, witness: the amended statement at a malformed and at a missing
file. -/
theorem C9_witness :
    (_load_tasks FileState.malformed).corruptSignaled = true ∧
    (_load_tasks FileState.missing).value = Json.arr [] :=
  ⟨(C9_load_semantics FileState.malformed).1.mpr rfl,
   ((C9_load_semantics FileState.missing).2 rfl).1⟩

/-- C10: the sort key is total over arbitrary priority strings (any
value outside `P1`/`P2`/`P3`/empty ranks 4, like the empty priority) but
not over due dates: a task with a non-empty unparseable due date makes
the projection raise (`none`), while under the precondition that every
non-empty due date parses the projection always succeeds. -/
theorem C10_sort_key_partiality :
    (∀ p : String, p ≠ "P1" → p ≠ "P2" → p ≠ "P3" → p ≠ "" →
      priority_num p = priority_num "") ∧
    refresh_task_view [badDateTask] "Inbox" = none ∧
    (∀ (tasks : List Task) (cur : String),
      (∀ t ∈ tasks, t.due_date ≠ "" → is_valid_date t.due_date = true) →
      (refresh_task_view tasks cur).isSome = true) := by
  refine ⟨?_, rfl, ?_⟩
  · intro p h1 h2 h3 h4
    simp [priority_num, priority_map, h1, h2, h3, h4]
  · intro ts cur hv
    unfold refresh_task_view
    rw [if_pos (visible_guard_of_valid ts cur hv)]
    rfl

/-- C10, witness: an unknown priority ranks like the empty one, and a
valid-date store projects successfully. -/
theorem C10_witness :
    priority_num "URGENT" = priority_num "" ∧
    (refresh_task_view stableDemo "Inbox").isSome = true :=
  ⟨C10_sort_key_partiality.1 "URGENT" (by decide) (by decide) (by decide) (by decide),
   C10_sort_key_partiality.2.2 stableDemo "Inbox" (by decide)⟩

end TodoApp
